import Mathlib

/-!
Shallow embedding of the settings-synchronization component
(`src/components/profile-settings.tsx`) and the slogan-generation tool
of the hubbaxai repository.

Numbers handled by the form are modelled as rationals (`ℚ`): every value
the component manipulates is a finite decimal, and the claims are about
exact domain bounds and exact round-trips.  JSON values appearing in the
settings record returned by `GET /api/profile/settings` are either `null`
or a number, since every `ModelSettings` field is numeric.
-/

namespace Hubbaxai

/-- A JSON value stored in a settings record: `null` or a number. -/
inductive JsonVal
  | jnull
  | jnum (q : ℚ)
deriving DecidableEq, Repr

/-- The react-hook-form edit buffer (`SettingsForm`): `temperature` is
required, the four other fields are optional (absent = provider default). -/
structure FormValues where
  temperature : ℚ
  maxTokens : Option ℚ
  topP : Option ℚ
  frequencyPenalty : Option ℚ
  presencePenalty : Option ℚ
deriving DecidableEq, Repr

/-- `defaultValues` passed to `useForm`: temperature 0.7, all optional
fields `undefined`. -/
def initialFormValues : FormValues :=
  ⟨7/10, none, none, none, none⟩

/-- The toast notification sink accepts `success` or `error` messages. -/
inductive ToastType
  | success
  | error
deriving DecidableEq, Repr

/-- One call to `toast({ type, description })`. -/
structure Toast where
  type : ToastType
  description : String
deriving DecidableEq, Repr

/-- `setValue(key, value)`: dynamic assignment into the form buffer.  A key
that is not one of the five registered fields leaves the buffer unchanged
(the component's buffer consists of the five `ModelSettings` fields).
The component only ever calls it with non-null values. -/
def setValue (f : FormValues) (key : String) (v : JsonVal) : FormValues :=
  match v with
  | .jnull => f
  | .jnum q =>
    if key = "temperature" then { f with temperature := q }
    else if key = "maxTokens" then { f with maxTokens := some q }
    else if key = "topP" then { f with topP := some q }
    else if key = "frequencyPenalty" then { f with frequencyPenalty := some q }
    else if key = "presencePenalty" then { f with presencePenalty := some q }
    else f

/-- The JSON object at `data.settings` in a successful `GET` response:
the five `ModelSettings` fields plus the bookkeeping columns, each either
absent (`none`) or a JSON value (possibly `jnull`). -/
structure SettingsRecord where
  userId : Option JsonVal
  createdAt : Option JsonVal
  updatedAt : Option JsonVal
  temperature : Option JsonVal
  maxTokens : Option JsonVal
  topP : Option JsonVal
  frequencyPenalty : Option JsonVal
  presencePenalty : Option JsonVal
deriving DecidableEq, Repr

/-- Contribution of one (possibly absent) field to `Object.entries`. -/
def optEntry (key : String) : Option JsonVal → List (String × JsonVal)
  | none => []
  | some v => [(key, v)]

/-- `Object.entries(data.settings)`: present fields as key/value pairs. -/
def SettingsRecord.entries (r : SettingsRecord) : List (String × JsonVal) :=
  optEntry "userId" r.userId ++ optEntry "createdAt" r.createdAt ++
  optEntry "updatedAt" r.updatedAt ++ optEntry "temperature" r.temperature ++
  optEntry "maxTokens" r.maxTokens ++ optEntry "topP" r.topP ++
  optEntry "frequencyPenalty" r.frequencyPenalty ++
  optEntry "presencePenalty" r.presencePenalty

/-- The `forEach` over `Object.entries(data.settings)`: apply `setValue`
to every entry whose value is non-null and whose key is not a bookkeeping
column. -/
def applyEntries (f : FormValues) (l : List (String × JsonVal)) : FormValues :=
  l.foldl (fun acc kv =>
    if kv.2 ≠ JsonVal.jnull ∧ kv.1 ≠ "userId" ∧ kv.1 ≠ "createdAt" ∧ kv.1 ≠ "updatedAt"
    then setValue acc kv.1 kv.2 else acc) f

/-- Populate the buffer from a returned settings record. -/
def applyRecord (f : FormValues) (r : SettingsRecord) : FormValues :=
  applyEntries f r.entries

/-- `MOCK_SETTINGS` as its `Object.entries` list: temperature 0.7,
maxTokens 4000, topP 0.95, frequencyPenalty 0.0, presencePenalty 0.0. -/
def MOCK_SETTINGS : List (String × JsonVal) :=
  [("temperature", .jnum (7/10)), ("maxTokens", .jnum 4000),
   ("topP", .jnum (19/20)), ("frequencyPenalty", .jnum 0),
   ("presencePenalty", .jnum 0)]

/-- The `forEach` over `Object.entries(MOCK_SETTINGS)` in the catch
branch: apply `setValue` to every non-null entry. -/
def applyMock (f : FormValues) : FormValues :=
  MOCK_SETTINGS.foldl (fun acc kv =>
    if kv.2 ≠ JsonVal.jnull then setValue acc kv.1 kv.2 else acc) f

/-- Outcome of the `fetch('/api/profile/settings')` read: the promise
rejects (transport error, also covering a body that fails to parse as
JSON), or it resolves with `response.ok` false, or it resolves ok with a
JSON body whose `settings` member is present or absent. -/
inductive FetchResult
  | transportError
  | httpError
  | okResponse (settings : Option SettingsRecord)
deriving DecidableEq, Repr

/-- The component state the claims are about: the edit buffer, the
`useMockData` flag (demo mode), and the `isLoading` flag. -/
structure ComponentState where
  form : FormValues
  useMockData : Bool
  isLoading : Bool
deriving DecidableEq, Repr

/-- `fetchSettings()`: given the state at the time of the call and the
result of the network read, returns the resulting state and the list of
toast notifications emitted.  The `finally` block clears `isLoading`. -/
def fetchSettings (st : ComponentState) (r : FetchResult) :
    ComponentState × List Toast :=
  match r with
  | .okResponse data =>
      let f := match data with
        | some rec => applyRecord st.form rec
        | none => st.form
      (⟨f, false, false⟩, [])
  | .httpError =>
      (⟨applyMock st.form, true, false⟩,
       [⟨.error, "Using sample settings: Database connection unavailable"⟩])
  | .transportError =>
      (⟨applyMock st.form, true, false⟩,
       [⟨.error, "Using sample settings: Database connection unavailable"⟩])

/-- Per-field validation errors reported by the zod resolver. -/
structure FieldErrors where
  temperature : Option String
  maxTokens : Option String
  topP : Option String
  frequencyPenalty : Option String
  presencePenalty : Option String
deriving DecidableEq, Repr

/-- `settingsFormSchema`: `temperature` in [0, 2]; `maxTokens` a positive
integer if present; `topP` in [0, 1] if present; `frequencyPenalty` and
`presencePenalty` in [-2, 2] if present.  An absent optional field passes.
Messages are zod's standard human-readable range messages. -/
def validate (f : FormValues) : FieldErrors :=
  { temperature :=
      if f.temperature < 0 then some "Number must be greater than or equal to 0"
      else if 2 < f.temperature then some "Number must be less than or equal to 2"
      else none,
    maxTokens :=
      match f.maxTokens with
      | none => none
      | some q =>
          if 0 < q then
            if q.den = 1 then none else some "Expected integer, received float"
          else some "Number must be greater than 0",
    topP :=
      match f.topP with
      | none => none
      | some q =>
          if q < 0 then some "Number must be greater than or equal to 0"
          else if 1 < q then some "Number must be less than or equal to 1"
          else none,
    frequencyPenalty :=
      match f.frequencyPenalty with
      | none => none
      | some q =>
          if q < -2 then some "Number must be greater than or equal to -2"
          else if 2 < q then some "Number must be less than or equal to 2"
          else none,
    presencePenalty :=
      match f.presencePenalty with
      | none => none
      | some q =>
          if q < -2 then some "Number must be greater than or equal to -2"
          else if 2 < q then some "Number must be less than or equal to 2"
          else none }

/-- Whether the resolver found any error (in which case `handleSubmit`
does not call `onSubmit`). -/
def FieldErrors.hasErrors (e : FieldErrors) : Bool :=
  e.temperature.isSome || e.maxTokens.isSome || e.topP.isSome ||
  e.frequencyPenalty.isSome || e.presencePenalty.isSome

/-- The empty error record. -/
def noErrors : FieldErrors := ⟨none, none, none, none, none⟩

/-- Outcome of the `fetch(..., { method: 'PUT', ... })` write. -/
inductive WriteResult
  | ok
  | httpError
  | transportError (message : String)
deriving DecidableEq, Repr

/-- One write request issued to the remote store: a `PUT` whose JSON body
is `JSON.stringify(data)`, the validated form values. -/
structure PutRequest where
  method : String
  contentType : String
  body : FormValues
deriving DecidableEq, Repr

/-- Everything observable about one submit: the resulting component
state, the resolver errors, the network writes issued, the toasts shown,
and the artificial `setTimeout` delay used by the mock update (ms). -/
structure SubmitOutcome where
  state : ComponentState
  errors : FieldErrors
  requests : List PutRequest
  toasts : List Toast
  mockDelayMs : Option Nat
deriving DecidableEq, Repr

/-- `handleSubmit(onSubmit)`: the resolver validates the buffer; on
failure the per-field errors are shown and `onSubmit` is not called.  On
success `onSubmit` runs: in mock (demo) mode it simulates a save after a
500 ms delay and reports success with no network write; in live mode it
issues exactly one `PUT` with the form values as body, reporting success
on an ok response and the failure reason otherwise.  `onSubmit` never
writes to the form buffer nor to `useMockData`. -/
def submitSettings (st : ComponentState) (w : WriteResult) : SubmitOutcome :=
  if (validate st.form).hasErrors then
    ⟨st, validate st.form, [], [], none⟩
  else if st.useMockData then
    ⟨⟨st.form, st.useMockData, false⟩, validate st.form, [],
     [⟨.success, "Settings updated in mock mode"⟩], some 500⟩
  else
    match w with
    | .ok =>
        ⟨⟨st.form, st.useMockData, false⟩, validate st.form,
         [⟨"PUT", "application/json", st.form⟩],
         [⟨.success, "Settings updated successfully"⟩], none⟩
    | .httpError =>
        ⟨⟨st.form, st.useMockData, false⟩, validate st.form,
         [⟨"PUT", "application/json", st.form⟩],
         [⟨.error, "Failed to update settings"⟩], none⟩
    | .transportError msg =>
        ⟨⟨st.form, st.useMockData, false⟩, validate st.form,
         [⟨"PUT", "application/json", st.form⟩],
         [⟨.error, msg⟩], none⟩

/-! ### The slogan-generation tool (`generateSlogan`) -/

/-- The request `generateSlogan` sends: a `POST` to the configured URL
with a JSON content type, a bearer-token authorization header, and a JSON
body carrying the prompt. -/
structure SloganRequest where
  url : String
  method : String
  contentType : String
  authorization : String
  promptBody : String
deriving DecidableEq, Repr

/-- JavaScript falsiness of an environment variable: `!process.env.X` is
true when the variable is unset and also when it is set to `""`. -/
def envFalsy : Option String → Bool
  | none => true
  | some s => s.isEmpty

/-- `generateSlogan.execute`: throws `'NovaAI is not configured'` without
issuing any request when either environment variable is falsy; otherwise
issues one authenticated POST and returns the endpoint's parsed JSON
response verbatim (an error of `respond` models a rejected fetch or a
non-JSON body, which propagates uncaught).  The result pairs the returned
or thrown value with the list of requests issued. -/
def generateSlogan {α : Type} (apiUrl apiKey : Option String) (prompt : String)
    (respond : SloganRequest → Except String α) :
    Except String α × List SloganRequest :=
  if envFalsy apiUrl || envFalsy apiKey then
    (.error "NovaAI is not configured", [])
  else
    let req : SloganRequest :=
      ⟨apiUrl.getD "", "POST", "application/json",
       "Bearer " ++ apiKey.getD "", prompt⟩
    (respond req, [req])

/-- Value of a required numeric field after applying an optional JSON
value: a number overwrites, null or absence keeps the old value. -/
def numOr (v : Option JsonVal) (dflt : ℚ) : ℚ :=
  match v with
  | some (.jnum q) => q
  | _ => dflt

/-- Value of an optional numeric field after applying an optional JSON
value. -/
def optNumOr (v : Option JsonVal) (dflt : Option ℚ) : Option ℚ :=
  match v with
  | some (.jnum q) => some q
  | _ => dflt

/-- Whether a settings field is absent or JSON null. -/
def nullOrAbsent : Option JsonVal → Bool
  | none => true
  | some .jnull => true
  | some (.jnum _) => false

/-- Whether every `ModelSettings` field of a returned record is absent or
null. -/
def SettingsRecord.settingsAllNull (r : SettingsRecord) : Bool :=
  nullOrAbsent r.temperature && nullOrAbsent r.maxTokens &&
  nullOrAbsent r.topP && nullOrAbsent r.frequencyPenalty &&
  nullOrAbsent r.presencePenalty

/-! ### Characterization of the settings-application fold -/

theorem applyEntries_append (f : FormValues) (l₁ l₂ : List (String × JsonVal)) :
    applyEntries f (l₁ ++ l₂) = applyEntries (applyEntries f l₁) l₂ := by
  simp [applyEntries]

theorem applyEntries_userId (f : FormValues) (v : Option JsonVal) :
    applyEntries f (optEntry "userId" v) = f := by
  cases v <;> simp [applyEntries, optEntry]

theorem applyEntries_createdAt (f : FormValues) (v : Option JsonVal) :
    applyEntries f (optEntry "createdAt" v) = f := by
  cases v <;> simp [applyEntries, optEntry]

theorem applyEntries_updatedAt (f : FormValues) (v : Option JsonVal) :
    applyEntries f (optEntry "updatedAt" v) = f := by
  cases v <;> simp [applyEntries, optEntry]

theorem applyEntries_temperature_entry (f : FormValues) (v : Option JsonVal) :
    applyEntries f (optEntry "temperature" v) =
      { f with temperature := numOr v f.temperature } := by
  rcases v with _ | (_ | q) <;> simp [applyEntries, optEntry, setValue, numOr]

theorem applyEntries_maxTokens_entry (f : FormValues) (v : Option JsonVal) :
    applyEntries f (optEntry "maxTokens" v) =
      { f with maxTokens := optNumOr v f.maxTokens } := by
  rcases v with _ | (_ | q) <;> simp [applyEntries, optEntry, setValue, optNumOr]

theorem applyEntries_topP_entry (f : FormValues) (v : Option JsonVal) :
    applyEntries f (optEntry "topP" v) =
      { f with topP := optNumOr v f.topP } := by
  rcases v with _ | (_ | q) <;> simp [applyEntries, optEntry, setValue, optNumOr]

theorem applyEntries_frequencyPenalty_entry (f : FormValues) (v : Option JsonVal) :
    applyEntries f (optEntry "frequencyPenalty" v) =
      { f with frequencyPenalty := optNumOr v f.frequencyPenalty } := by
  rcases v with _ | (_ | q) <;> simp [applyEntries, optEntry, setValue, optNumOr]

theorem applyEntries_presencePenalty_entry (f : FormValues) (v : Option JsonVal) :
    applyEntries f (optEntry "presencePenalty" v) =
      { f with presencePenalty := optNumOr v f.presencePenalty } := by
  rcases v with _ | (_ | q) <;> simp [applyEntries, optEntry, setValue, optNumOr]

/-- Applying a returned settings record updates each `ModelSettings`
field from its non-null returned value, keeps it otherwise, and ignores
the bookkeeping columns. -/
theorem applyRecord_eq (f : FormValues) (r : SettingsRecord) :
    applyRecord f r =
      ⟨numOr r.temperature f.temperature,
       optNumOr r.maxTokens f.maxTokens,
       optNumOr r.topP f.topP,
       optNumOr r.frequencyPenalty f.frequencyPenalty,
       optNumOr r.presencePenalty f.presencePenalty⟩ := by
  unfold applyRecord SettingsRecord.entries
  rw [applyEntries_append, applyEntries_append, applyEntries_append,
      applyEntries_append, applyEntries_append, applyEntries_append,
      applyEntries_append]
  rw [applyEntries_userId, applyEntries_createdAt, applyEntries_updatedAt,
      applyEntries_temperature_entry, applyEntries_maxTokens_entry,
      applyEntries_topP_entry, applyEntries_frequencyPenalty_entry,
      applyEntries_presencePenalty_entry]

/-- The catch branch overwrites all five fields with the mock values. -/
theorem applyMock_eq (f : FormValues) :
    applyMock f = ⟨7/10, some 4000, some (19/20), some 0, some 0⟩ := by
  simp [applyMock, MOCK_SETTINGS, setValue]

/-! ### Claim theorems -/

/-- C1: every failed `loadSettings` (non-ok response or transport error)
leaves the edit buffer holding exactly the built-in mock defaults
(temperature 0.7, maxTokens 4000, topP 0.95, frequencyPenalty 0,
presencePenalty 0), sets the demo-mode flag, and emits exactly one
warning notification. -/
theorem fetchSettings_failure_defaults (st : ComponentState) (r : FetchResult)
    (h : r = FetchResult.httpError ∨ r = FetchResult.transportError) :
    fetchSettings st r =
      (⟨⟨7/10, some 4000, some (19/20), some 0, some 0⟩, true, false⟩,
       [⟨ToastType.error, "Using sample settings: Database connection unavailable"⟩]) := by
  rcases h with h | h <;> subst h <;>
    simp [fetchSettings, applyMock_eq]

theorem fetchSettings_failure_defaults_witness :
    fetchSettings ⟨initialFormValues, false, true⟩ FetchResult.transportError =
      (⟨⟨7/10, some 4000, some (19/20), some 0, some 0⟩, true, false⟩,
       [⟨ToastType.error, "Using sample settings: Database connection unavailable"⟩]) :=
  fetchSettings_failure_defaults ⟨initialFormValues, false, true⟩
    FetchResult.transportError (Or.inr rfl)

/-- C2: in demo mode, a submit of a valid buffer issues zero network
writes and reports success. -/
theorem submitSettings_demo_mode (st : ComponentState) (w : WriteResult)
    (hmock : st.useMockData = true)
    (hvalid : (validate st.form).hasErrors = false) :
    (submitSettings st w).requests = [] ∧
    (submitSettings st w).toasts =
      [⟨ToastType.success, "Settings updated in mock mode"⟩] := by
  simp [submitSettings, hvalid, hmock]

theorem submitSettings_demo_mode_witness :
    (submitSettings ⟨initialFormValues, true, false⟩ WriteResult.ok).requests = [] ∧
    (submitSettings ⟨initialFormValues, true, false⟩ WriteResult.ok).toasts =
      [⟨ToastType.success, "Settings updated in mock mode"⟩] :=
  submitSettings_demo_mode ⟨initialFormValues, true, false⟩ WriteResult.ok rfl
    (by norm_num [validate, FieldErrors.hasErrors, initialFormValues])

/-- C3: in live mode, a submit of a valid buffer issues exactly one PUT
whose body is exactly the submitted form values, and reports success on
an ok response. -/
theorem submitSettings_live_mode (st : ComponentState) (w : WriteResult)
    (hlive : st.useMockData = false)
    (hvalid : (validate st.form).hasErrors = false) :
    (submitSettings st w).requests = [⟨"PUT", "application/json", st.form⟩] ∧
    (w = WriteResult.ok → (submitSettings st w).toasts =
      [⟨ToastType.success, "Settings updated successfully"⟩]) := by
  cases w <;> simp [submitSettings, hvalid, hlive]

theorem submitSettings_live_mode_witness :
    (submitSettings ⟨⟨6/5, some 2000, none, none, none⟩, false, false⟩
        WriteResult.ok).requests =
      [⟨"PUT", "application/json", ⟨6/5, some 2000, none, none, none⟩⟩] ∧
    (submitSettings ⟨⟨6/5, some 2000, none, none, none⟩, false, false⟩
        WriteResult.ok).toasts =
      [⟨ToastType.success, "Settings updated successfully"⟩] := by
  have h := submitSettings_live_mode
    ⟨⟨6/5, some 2000, none, none, none⟩, false, false⟩ WriteResult.ok rfl
    (by norm_num [validate, FieldErrors.hasErrors])
  exact ⟨h.1, h.2 rfl⟩

/-- C4: a temperature outside [0, 2], or any present optional field
outside its declared domain, is rejected by the resolver with a per-field
message, and whenever the resolver reports any error no network request
is made (and no toast is shown). -/
theorem submitSettings_validation_rejects (st : ComponentState) (w : WriteResult) :
    ((st.form.temperature < 0 ∨ 2 < st.form.temperature) →
        (validate st.form).temperature.isSome = true) ∧
    (∀ q, st.form.maxTokens = some q → ¬(0 < q ∧ q.den = 1) →
        (validate st.form).maxTokens.isSome = true) ∧
    (∀ q, st.form.topP = some q → (q < 0 ∨ 1 < q) →
        (validate st.form).topP.isSome = true) ∧
    (∀ q, st.form.frequencyPenalty = some q → (q < -2 ∨ 2 < q) →
        (validate st.form).frequencyPenalty.isSome = true) ∧
    (∀ q, st.form.presencePenalty = some q → (q < -2 ∨ 2 < q) →
        (validate st.form).presencePenalty.isSome = true) ∧
    ((validate st.form).hasErrors = true →
        (submitSettings st w).requests = [] ∧ (submitSettings st w).toasts = []) := by
  refine ⟨?_, ?_, ?_, ?_, ?_, ?_⟩
  · rintro (h | h)
    · simp [validate, h]
    · have h0 : ¬ st.form.temperature < 0 := by linarith
      simp [validate, h0, h]
  · rintro q hq hbad
    by_cases h1 : 0 < q
    · by_cases h2 : q.den = 1
      · exact absurd ⟨h1, h2⟩ hbad
      · simp [validate, hq, h1, h2]
    · simp [validate, hq, h1]
  · rintro q hq (h | h)
    · simp [validate, hq, h]
    · have h0 : ¬ q < 0 := by linarith
      simp [validate, hq, h0, h]
  · rintro q hq (h | h)
    · simp [validate, hq, h]
    · have h0 : ¬ q < -2 := by linarith
      simp [validate, hq, h0, h]
  · rintro q hq (h | h)
    · simp [validate, hq, h]
    · have h0 : ¬ q < -2 := by linarith
      simp [validate, hq, h0, h]
  · intro h
    simp [submitSettings, h]

theorem submitSettings_validation_rejects_witness :
    (validate ⟨7/10, none, some (3/2), none, none⟩).topP.isSome = true ∧
    (submitSettings ⟨⟨7/10, none, some (3/2), none, none⟩, false, false⟩
        WriteResult.ok).requests = [] := by
  have h := submitSettings_validation_rejects
    ⟨⟨7/10, none, some (3/2), none, none⟩, false, false⟩ WriteResult.ok
  exact ⟨h.2.2.1 (3/2) rfl (Or.inr (by norm_num)),
    (h.2.2.2.2.2 (by norm_num [validate, FieldErrors.hasErrors])).1⟩

/-- C5: a failed live-mode submit (non-ok response or transport error)
reports the failure reason as an error toast and leaves the edit buffer
unchanged. -/
theorem submitSettings_live_failure (st : ComponentState) (w : WriteResult)
    (hlive : st.useMockData = false)
    (hvalid : (validate st.form).hasErrors = false)
    (hfail : w = WriteResult.httpError ∨ ∃ m, w = WriteResult.transportError m) :
    (∃ m, (submitSettings st w).toasts = [⟨ToastType.error, m⟩]) ∧
    (submitSettings st w).state.form = st.form := by
  rcases hfail with h | ⟨m, h⟩ <;> subst h <;>
    simp [submitSettings, hvalid, hlive]

theorem submitSettings_live_failure_witness :
    (∃ m, (submitSettings ⟨initialFormValues, false, false⟩
        WriteResult.httpError).toasts = [⟨ToastType.error, m⟩]) ∧
    (submitSettings ⟨initialFormValues, false, false⟩
        WriteResult.httpError).state.form = initialFormValues :=
  submitSettings_live_failure ⟨initialFormValues, false, false⟩
    WriteResult.httpError rfl
    (by norm_num [validate, FieldErrors.hasErrors, initialFormValues]) (Or.inl rfl)

/-- C6: no branch of a submit (validation failure, demo-mode simulated
save, live-mode success, live-mode failure) changes the session-mode
flag. -/
theorem submitSettings_preserves_mode (st : ComponentState) (w : WriteResult) :
    (submitSettings st w).state.useMockData = st.useMockData := by
  by_cases h : (validate st.form).hasErrors <;>
    cases w <;> by_cases hm : st.useMockData <;>
      simp [submitSettings, h, hm]

/-- C7: a successful `loadSettings` marks the session live, emits no
notification, and copies each non-null returned `ModelSettings` field
into the edit buffer unchanged. -/
theorem fetchSettings_success_roundtrip (st : ComponentState) (rec : SettingsRecord) :
    (fetchSettings st (FetchResult.okResponse (some rec))).1.useMockData = false ∧
    (fetchSettings st (FetchResult.okResponse (some rec))).2 = [] ∧
    (∀ q, rec.temperature = some (JsonVal.jnum q) →
      (fetchSettings st (FetchResult.okResponse (some rec))).1.form.temperature = q) ∧
    (∀ q, rec.maxTokens = some (JsonVal.jnum q) →
      (fetchSettings st (FetchResult.okResponse (some rec))).1.form.maxTokens = some q) ∧
    (∀ q, rec.topP = some (JsonVal.jnum q) →
      (fetchSettings st (FetchResult.okResponse (some rec))).1.form.topP = some q) ∧
    (∀ q, rec.frequencyPenalty = some (JsonVal.jnum q) →
      (fetchSettings st (FetchResult.okResponse (some rec))).1.form.frequencyPenalty = some q) ∧
    (∀ q, rec.presencePenalty = some (JsonVal.jnum q) →
      (fetchSettings st (FetchResult.okResponse (some rec))).1.form.presencePenalty = some q) := by
  refine ⟨rfl, rfl, ?_, ?_, ?_, ?_, ?_⟩ <;> intro q hq <;>
    simp [fetchSettings, applyRecord_eq, numOr, optNumOr, hq]

theorem fetchSettings_success_roundtrip_witness :
    (fetchSettings ⟨initialFormValues, false, true⟩
      (FetchResult.okResponse (some
        ⟨some (JsonVal.jnum 42), some JsonVal.jnull, some JsonVal.jnull,
         some (JsonVal.jnum (17/20)), none, some JsonVal.jnull, none,
         none⟩))).1.form.temperature = 17/20 := by
  have h := fetchSettings_success_roundtrip ⟨initialFormValues, false, true⟩
    ⟨some (JsonVal.jnum 42), some JsonVal.jnull, some JsonVal.jnull,
     some (JsonVal.jnum (17/20)), none, some JsonVal.jnull, none, none⟩
  exact h.2.2.1 (17/20) rfl

/-- C9: a buffer whose temperature lies in [0, 2] with all optional
fields absent passes validation with no errors. -/
theorem validate_accepts_absent_optionals (f : FormValues)
    (h0 : 0 ≤ f.temperature) (h2 : f.temperature ≤ 2)
    (hmt : f.maxTokens = none) (htp : f.topP = none)
    (hfp : f.frequencyPenalty = none) (hpp : f.presencePenalty = none) :
    validate f = noErrors := by
  have hlt : ¬ f.temperature < 0 := by linarith
  have hgt : ¬ 2 < f.temperature := by linarith
  simp [validate, noErrors, hlt, hgt, hmt, htp, hfp, hpp]

theorem validate_accepts_absent_optionals_witness :
    validate ⟨7/10, none, none, none, none⟩ = noErrors :=
  validate_accepts_absent_optionals ⟨7/10, none, none, none, none⟩
    (by norm_num) (by norm_num) rfl rfl rfl rfl

theorem numOr_of_nullOrAbsent (v : Option JsonVal) (d : ℚ)
    (h : nullOrAbsent v = true) : numOr v d = d := by
  rcases v with _ | (_ | q) <;> simp_all [nullOrAbsent, numOr]

theorem optNumOr_of_nullOrAbsent (v : Option JsonVal) (d : Option ℚ)
    (h : nullOrAbsent v = true) : optNumOr v d = d := by
  rcases v with _ | (_ | q) <;> simp_all [nullOrAbsent, optNumOr]

/-- C10: a successful `loadSettings` whose body has no settings object,
or whose settings fields are all null, still marks the session live,
emits no notification, and leaves the buffer at the form's initial
defaults (temperature 0.7, optional fields absent). -/
theorem fetchSettings_success_empty (u l : Bool) (data : Option SettingsRecord)
    (h : data = none ∨ ∃ r, data = some r ∧ r.settingsAllNull = true) :
    fetchSettings ⟨initialFormValues, u, l⟩ (FetchResult.okResponse data) =
      (⟨initialFormValues, false, false⟩, []) := by
  rcases h with h | ⟨r, h, hnull⟩ <;> subst h
  · rfl
  · obtain ⟨⟨⟨⟨h1, h2⟩, h3⟩, h4⟩, h5⟩ :
        (((nullOrAbsent r.temperature = true ∧ nullOrAbsent r.maxTokens = true) ∧
          nullOrAbsent r.topP = true) ∧ nullOrAbsent r.frequencyPenalty = true) ∧
          nullOrAbsent r.presencePenalty = true := by
      simpa [SettingsRecord.settingsAllNull] using hnull
    simp [fetchSettings, applyRecord_eq,
          numOr_of_nullOrAbsent _ _ h1, optNumOr_of_nullOrAbsent _ _ h2,
          optNumOr_of_nullOrAbsent _ _ h3, optNumOr_of_nullOrAbsent _ _ h4,
          optNumOr_of_nullOrAbsent _ _ h5, initialFormValues]

theorem fetchSettings_success_empty_witness :
    fetchSettings ⟨initialFormValues, false, true⟩ (FetchResult.okResponse none) =
      (⟨initialFormValues, false, false⟩, []) :=
  fetchSettings_success_empty false true none (Or.inl rfl)

/-- C8 counterexample: with the URL environment variable present but set
to the empty string (and the key present and non-empty), the tool still
throws without issuing a request, although neither variable is absent
from the environment — so "fails iff absent" is false as stated. -/
theorem generateSlogan_claim_counterexample :
    (some "" : Option String) ≠ none ∧ (some "secret" : Option String) ≠ none ∧
    generateSlogan (α := String) (some "") (some "secret") "slogan me"
        (fun _ => Except.ok "response") =
      (Except.error "NovaAI is not configured", []) := by
  refine ⟨by simp, by simp, rfl⟩

/-- C8 (amended): the tool throws immediately, issuing no request, iff
the endpoint URL or the credential is absent from the environment or set
to the empty string (JS falsiness); when both are non-empty it issues
exactly one POST with a JSON content type, a bearer credential, and the
given prompt, and returns the endpoint's response verbatim. -/
theorem generateSlogan_spec {α : Type} (apiUrl apiKey : Option String)
    (prompt : String) (respond : SloganRequest → Except String α) :
    ((envFalsy apiUrl || envFalsy apiKey) = true →
      generateSlogan apiUrl apiKey prompt respond =
        (Except.error "NovaAI is not configured", [])) ∧
    (∀ url key, apiUrl = some url → apiKey = some key → url ≠ "" → key ≠ "" →
      generateSlogan apiUrl apiKey prompt respond =
        (respond ⟨url, "POST", "application/json", "Bearer " ++ key, prompt⟩,
         [⟨url, "POST", "application/json", "Bearer " ++ key, prompt⟩])) := by
  constructor
  · intro h
    simp [generateSlogan, h]
  · rintro url key rfl rfl hu hk
    have hu' : url.isEmpty = false := by
      cases h : url.isEmpty
      · rfl
      · exact absurd ((String.isEmpty_iff url).mp h) hu
    have hk' : key.isEmpty = false := by
      cases h : key.isEmpty
      · rfl
      · exact absurd ((String.isEmpty_iff key).mp h) hk
    simp [generateSlogan, envFalsy, hu', hk']

theorem generateSlogan_spec_witness :
    generateSlogan (α := String) none (some "secret") "slogan me"
        (fun _ => Except.ok "response") =
      (Except.error "NovaAI is not configured", []) ∧
    generateSlogan (α := String) (some "https://nova.example") (some "secret")
        "slogan me" (fun _ => Except.ok "response") =
      (Except.ok "response",
       [⟨"https://nova.example", "POST", "application/json", "Bearer secret",
         "slogan me"⟩]) := by
  constructor
  · exact (generateSlogan_spec none (some "secret") "slogan me"
      (fun _ => Except.ok "response")).1 rfl
  · have h := (generateSlogan_spec (some "https://nova.example") (some "secret")
      "slogan me" (fun _ => Except.ok "response")).2 "https://nova.example"
      "secret" rfl rfl (by simp) (by simp)
    simpa using h

end Hubbaxai
